import Mathlib

/-!
Shallow embedding of the caller-lookup worker pipeline of this repository
(src/unnamed/part_000, src/unnamed/part_001, src/_worker.js): phone
normalization, upstream lookup control flow, and schema coercion.

JavaScript runtime values are modeled by `JVal` (JSON values plus `nan`);
the JavaScript value `undefined` is modeled by `Option JVal`, with `none`
standing for undefined.  JSON numbers are modeled as integers, which
covers every value the claims exercise.  The network is modeled by
passing the upstream `HttpResponse` to the lookup functions as an
explicit argument; each lookup function returns, next to its result, the
number of fetch calls it performed, so that a claim about work done
before any network round trip is statable.
-/

/-- A JavaScript runtime value: the JSON values plus `nan` (the result of
a failed numeric coercion).  `undefined` is modeled separately by
`Option JVal`. -/
inductive JVal where
  | null : JVal
  | nan : JVal
  | bool : Bool → JVal
  | num : Int → JVal
  | str : String → JVal
  | arr : List JVal → JVal
  | obj : List (String × JVal) → JVal

/-- JavaScript truthiness of a defined value: null, NaN, false, 0 and the
empty string are falsy; arrays and objects are always truthy. -/
def JVal.truthy : JVal → Bool
  | .null => false
  | .nan => false
  | .bool b => b
  | .num n => decide (n ≠ 0)
  | .str s => decide (s ≠ "")
  | .arr _ => true
  | .obj _ => true

/-- Property access `v.k` on a JavaScript value: defined only on objects,
`none` (undefined) everywhere else.  Objects are finite maps, so the
first binding of a key is the binding. -/
def jget (v : JVal) (k : String) : Option JVal :=
  match v with
  | .obj fs => (fs.find? (fun kv => decide (kv.1 = k))).map (fun kv => kv.2)
  | _ => none

/-- Optional chaining `o?.k`: undefined propagates. -/
def jgetOpt (o : Option JVal) (k : String) : Option JVal :=
  match o with
  | some v => jget v k
  | none => none

/-- Truthiness of a possibly-undefined value (undefined is falsy). -/
def otruthy (o : Option JVal) : Bool :=
  match o with
  | some v => v.truthy
  | none => false

/-- JavaScript `a || b` where both sides may be undefined. -/
def jsOr (a b : Option JVal) : Option JVal :=
  match a with
  | some v => if v.truthy then some v else b
  | none => b

/-- JavaScript `a || b` where the right side is a defined default. -/
def jsOrV (a : Option JVal) (b : JVal) : JVal :=
  match a with
  | some v => if v.truthy then v else b
  | none => b

/-- Strict equality `v === s` between a JavaScript value and a string. -/
def jStrEq (v : JVal) (s : String) : Bool :=
  match v with
  | .str t => decide (t = s)
  | _ => false

mutual

/-- JavaScript `String(v)` conversion of a defined value.  Arrays join
their elements with commas, nulls inside an array rendering as the empty
string, exactly as `Array.prototype.join` does. -/
def jsStringOf : JVal → String
  | .null => "null"
  | .nan => "NaN"
  | .bool b => cond b "true" "false"
  | .num n => toString n
  | .str s => s
  | .arr xs => String.intercalate "," (jsJoinParts xs)
  | .obj _ => "[object Object]"

/-- Element rendering used by `Array.prototype.join`. -/
def jsJoinParts : List JVal → List String
  | [] => []
  | .null :: xs => "" :: jsJoinParts xs
  | v :: xs => jsStringOf v :: jsJoinParts xs

end

/-- The `arrayish` helper of src/unnamed/part_000: a falsy value becomes
the empty list, an array stays itself, any other truthy value becomes a
one-element list. -/
def arrayish (v : Option JVal) : List JVal :=
  match v with
  | none => []
  | some w => if w.truthy then (match w with | .arr xs => xs | _ => [w]) else []

/-- The shared `filter(Boolean).join(sep)` idiom on a literal array whose
entries may be undefined. -/
def joinTruthy (parts : List (Option JVal)) (sep : String) : String :=
  String.intercalate sep (((parts.filterMap id).filter JVal.truthy).map jsStringOf)

/-- JavaScript `s.trim()`: leading and trailing whitespace removed. -/
def jsTrim (s : String) : String :=
  String.mk (((s.data.dropWhile Char.isWhitespace).reverse.dropWhile Char.isWhitespace).reverse)

/-- The value of a non-empty all-digit character list, `none` otherwise. -/
def natOfDigits (l : List Char) : Option Nat :=
  if l ≠ [] ∧ l.all Char.isDigit then
    some (l.foldl (fun acc c => 10 * acc + (c.toNat - '0'.toNat)) 0)
  else none

/-- Keys of a JavaScript object, in insertion order. -/
def JVal.keys : JVal → List String
  | .obj fs => fs.map Prod.fst
  | _ => []

/-- JavaScript `Number(v)` coercion, with `none` for NaN.  Strings parse
as optionally signed integer literals (the integer fragment of the
JavaScript grammar; fractional literals are outside the integer model);
arrays and objects coerce through their string conversion. -/
def parseNumStr (s : String) : Option Int :=
  match (jsTrim s).data with
  | [] => some 0
  | '-' :: rest => (natOfDigits rest).map (fun n => -(Int.ofNat n))
  | '+' :: rest => (natOfDigits rest).map Int.ofNat
  | t => (natOfDigits t).map Int.ofNat

/-- JavaScript `Number(v)` on a defined value; `none` models NaN. -/
def jsNumber : JVal → Option Int
  | .null => some 0
  | .nan => none
  | .bool b => some (cond b 1 0)
  | .num n => some n
  | .str s => parseNumStr s
  | .arr xs => parseNumStr (jsStringOf (.arr xs))
  | .obj fs => parseNumStr (jsStringOf (.obj fs))

/-- JavaScript `n.toFixed(2)` for the integer model. -/
def toFixedTwo (o : Option Int) : String :=
  match o with
  | none => "NaN"
  | some n => toString n ++ ".00"

/-- An upstream HTTP response as the lookup code observes it.
`bodyText = none` models `text()` rejecting; `bodyJson = none` models
`json()` rejecting because the body is not valid JSON. -/
structure HttpResponse where
  status : Nat
  statusText : String
  bodyText : Option String
  bodyJson : Option JVal

/-- `resp.ok` of the fetch API: the status is in the 2xx range. -/
def respOk (r : HttpResponse) : Prop :=
  200 ≤ r.status ∧ r.status ≤ 299

instance (r : HttpResponse) : Decidable (respOk r) := by
  unfold respOk; infer_instance

/-- The `safeText` helper shared by all variants: the body text, or the
empty string when reading it fails. -/
def safeText (r : HttpResponse) : String :=
  r.bodyText.getD ""

/-- JavaScript `s.slice(0, 300)`, the body excerpt used in upstream
error messages. -/
def slice300 (s : String) : String :=
  String.mk (s.data.take 300)

/-- An error escaping a lookup function: either an explicitly thrown
`Error` carrying its message, or the SyntaxError with which `json()`
rejects on an unparsable body. -/
inductive JsError where
  | thrown : String → JsError
  | malformedJson : JsError

/-- Digit extraction `String(input).replace` dropping every non-digit,
shared by all three copies of `normalizePhone`. -/
def digitsOf (s : String) : List Char :=
  s.data.filter Char.isDigit

/-- The `cc` local of the 10-digit branch of `normalizePhone`: the
configured default country code is used verbatim when it already starts
with a plus, and otherwise is stripped to its digits with a plus
prepended. -/
def ccOf (defaultCountry : String) : List Char :=
  if defaultCountry.data.take 1 = ['+'] then defaultCountry.data
  else '+' :: (defaultCountry.data.filter Char.isDigit)

/-- The default country code normalization as the specification words
it: ensured to start with a plus and stripped of non-digit characters
after the plus.  Stated from the specification text for comparison with
the `ccOf` of the source. -/
def specCountryCode (defaultCountry : String) : List Char :=
  '+' :: ((if defaultCountry.data.take 1 = ['+']
            then defaultCountry.data.drop 1
            else defaultCountry.data).filter Char.isDigit)

/-- `normalizePhone`, identical in all three source files.  The local
`const digits` is written out as `digitsOf input` at each use. -/
def normalizePhone (input : String) (defaultCountry : String) : String :=
  if input.data = [] then ""
  else if digitsOf input = [] then ""
  else if (digitsOf input).length = 11 ∧ (digitsOf input).take 1 = ['1'] then
    String.mk ('+' :: digitsOf input)
  else if (digitsOf input).length = 10 then
    String.mk (ccOf defaultCountry ++ digitsOf input)
  else if 11 ≤ (digitsOf input).length ∧ (digitsOf input).length ≤ 15 then
    String.mk ('+' :: digitsOf input)
  else
    String.mk ('+' :: digitsOf input)

namespace P0

/-! Deployment variant of src/unnamed/part_000: query-style lookup (GET
with a bearer credential) and the alias-rich coercer. -/

/-- The `joinName` helper of part_000. -/
def joinName (a b : Option JVal) : String :=
  jsTrim (joinTruthy [a, b] " ")

/-- The `formatAddress` helper of part_000, on a possibly-undefined
address value. -/
def formatAddress (addr : Option JVal) : JVal :=
  match addr with
  | none => .str ""
  | some a =>
    if a.truthy then
      match a with
      | .str s => .str s
      | _ =>
        .str (String.intercalate " • "
          ((([
              jsOrV (jget a "line1") (jsOrV (jget a "street") (.str "")),
              jsOrV (jget a "line2") (.str ""),
              .str (joinTruthy [jget a "city", jget a "state"] ", "),
              jsOrV (jget a "postal") (jsOrV (jget a "zip") (.str "")),
              jsOrV (jget a "country") (.str "")
            ] : List JVal).filter JVal.truthy).map jsStringOf))
    else .str ""

/-- The `primary` local of the part_000 coercer:
`api?.primary || api?.data || api || ` the empty object. -/
def pickPrimary (api : JVal) : JVal :=
  jsOrV (jget api "primary")
    (jsOrV (jget api "data") (if api.truthy then api else .obj []))

/-- `coerceToCallerSchema` of src/unnamed/part_000. -/
def coerceToCallerSchema (api : JVal) (phoneE164 : String) : JVal :=
  let primary := pickPrimary api
  .obj [
    ("phone", jsOrV (jget primary "phone") (.str phoneE164)),
    ("name", jsOrV (jget primary "name") (jsOrV (jget primary "full_name")
      (.str (if joinName (jget primary "first_name") (jget primary "last_name") = ""
             then "Unknown"
             else joinName (jget primary "first_name") (jget primary "last_name"))))),
    ("company", jsOrV (jget primary "company") (jsOrV (jget primary "org") (.str ""))),
    ("title", jsOrV (jget primary "title") (.str "")),
    ("emails", .arr ((arrayish (jsOr (jget primary "emails") (jget primary "email"))).filter JVal.truthy)),
    ("altPhones", .arr ((arrayish (jsOr (jget primary "altPhones") (jget primary "phones"))).filter
      (fun p => p.truthy && !(jStrEq p phoneE164)))),
    ("address", formatAddress (jsOr (jget primary "address") (jget primary "location"))),
    ("tags", .arr (arrayish (jget primary "tags"))),
    ("risk", jsOrV (jget primary "risk") .null),
    ("status", jsOrV (jget primary "status") (.str "")),
    ("customerSince", jsOrV (jget primary "customer_since") (jsOrV (jget primary "created_at") (.str ""))),
    ("notes", .arr (arrayish (jget primary "notes"))),
    ("meta", jsOrV (jget primary "meta") (.obj []))
  ]

/-- Environment bindings read by the part_000 lookup.  They feed only the
request construction, which the response argument abstracts. -/
structure Env where
  API_BASE_URL : String
  API_TOKEN : String

/-- `lookupByPhone` of src/unnamed/part_000, as a function of the
upstream response.  The second component counts fetch calls.  A parse
failure of a 2xx body is caught and replaced by the empty object. -/
def lookupByPhone (e164 : String) (env : Env) (resp : HttpResponse) :
    Except JsError JVal × Nat :=
  if e164 = "" then (.error (.thrown "No valid phone provided."), 0)
  else if ¬ respOk resp then
    (.error (.thrown ("Upstream API " ++ toString resp.status ++ " " ++
       resp.statusText ++ ": " ++ slice300 (safeText resp))), 1)
  else
    match resp.bodyJson with
    | none => (.ok (coerceToCallerSchema (.obj []) e164), 1)
    | some json => (.ok (coerceToCallerSchema json e164), 1)

end P0

namespace P1

/-! Deployment variant of src/unnamed/part_001: verification-token style
lookup (POST with a verification-token header) and the healthcare-shaped
coercer. -/

/-- `coerceToCallerSchema` of src/unnamed/part_001. -/
def coerceToCallerSchema (api : JVal) (phoneE164 : String) : JVal :=
  let p := if api.truthy then api else .obj []
  .obj [
    ("phone", .str phoneE164),
    ("name", .str (if jsTrim (joinTruthy [jget p "first_name", jget p "last_name"] " ") = ""
                   then "Unknown"
                   else jsTrim (joinTruthy [jget p "first_name", jget p "last_name"] " "))),
    ("title", jsOrV (jget p "provider_name") (.str "")),
    ("company", jsOrV (jget p "clinic_name") (.str "")),
    ("emails", .arr (match jget p "email_address" with
                     | some v => if v.truthy then [v] else []
                     | none => [])),
    ("altPhones", .arr []),
    ("address", jsOrV (jget p "home_address") (.str "")),
    ("tags", .arr (match jget p "program_eligibility" with
                   | some (.arr xs) => xs
                   | _ => [])),
    ("risk", .null),
    ("status", .str ""),
    ("customerSince", .str ""),
    ("notes", .arr (([
        (match jget p "pap_id" with
         | some v => if v.truthy then JVal.str ("PAP ID: " ++ jsStringOf v) else .null
         | none => .null),
        (match jget p "copay_amount" with
         | some .null => .null
         | some v => JVal.str ("Copay: $" ++ toFixedTwo (jsNumber v))
         | none => .null),
        (match jgetOpt (jget p "insurance") "primary" with
         | some v => if v.truthy then JVal.str ("Primary Insurance: " ++ jsStringOf v) else .null
         | none => .null),
        (match jget p "date_of_birth" with
         | some v => if v.truthy then JVal.str ("DOB: " ++ jsStringOf v) else .null
         | none => .null)
      ] : List JVal).filter JVal.truthy)),
    ("meta", .obj ((match jget p "provider_name" with
                    | some v => if v.truthy then [("Provider", v)] else []
                    | none => []) ++
                   (match jget p "clinic_name" with
                    | some v => if v.truthy then [("Clinic", v)] else []
                    | none => [])))
  ]

/-- Environment bindings read by the part_001 lookup. -/
structure Env where
  API_URL : String
  VERIFY_TOKEN : String

/-- The digits-only phone sent in the POST body. -/
def requestDigits (e164 : String) : String :=
  String.mk (e164.data.filter Char.isDigit)

/-- `lookupByPhone` of src/unnamed/part_001, as a function of the
upstream response.  The second component counts fetch calls.  Missing
configuration and an empty phone fail before the fetch; an unparsable
2xx body rejects with the SyntaxError of `json()`. -/
def lookupByPhone (e164 : String) (env : Env) (resp : HttpResponse) :
    Except JsError JVal × Nat :=
  if env.API_URL = "" then (.error (.thrown "Missing API_URL"), 0)
  else if env.VERIFY_TOKEN = "" then (.error (.thrown "Missing VERIFY_TOKEN"), 0)
  else if e164 = "" then (.error (.thrown "No valid phone provided"), 0)
  else if ¬ respOk resp then
    (.error (.thrown ("Upstream " ++ toString resp.status ++ " " ++
       resp.statusText ++ ": " ++ slice300 (safeText resp))), 1)
  else
    match resp.bodyJson with
    | none => (.error .malformedJson, 1)
    | some api => (.ok (coerceToCallerSchema api e164), 1)

end P1

namespace W

/-! Deployment variant of src/_worker.js: name-qualified lookup (POST
with phone, first and last name) and the call-details coercer. -/

/-- `coerceToCallerSchema` of src/_worker.js.  Its record shape differs
from the other two variants. -/
def coerceToCallerSchema (api : JVal) (phoneE164 : String) : JVal :=
  let p := if api.truthy then api else .obj []
  .obj [
    ("phone", .str phoneE164),
    ("name", .str (if jsTrim (joinTruthy [jget p "first_name", jget p "last_name"] " ") = ""
                   then "Unknown"
                   else jsTrim (joinTruthy [jget p "first_name", jget p "last_name"] " "))),
    ("papId", (match jget p "pap_id" with
               | none => JVal.null
               | some .null => JVal.null
               | some v => v)),
    ("emails", .arr (match jget p "email_address" with
                     | some v => if v.truthy then [v] else []
                     | none => [])),
    ("address", jsOrV (jget p "home_address") (.str "")),
    ("dob", jsOrV (jget p "date_of_birth") (.str "")),
    ("copay", (match jget p "copay_amount" with
               | none => JVal.null
               | some .null => JVal.null
               | some v => match jsNumber v with
                           | some n => JVal.num n
                           | none => JVal.nan)),
    ("insurancePrimary", jsOrV (jgetOpt (jget p "insurance") "primary") (.str "")),
    ("insuranceSecondary", jsOrV (jgetOpt (jget p "insurance") "secondary") (.str "")),
    ("eligibility", .arr (match jget p "program_eligibility" with
                          | some (.arr xs) => xs
                          | _ => [])),
    ("clinic", jsOrV (jget p "clinic_name") (.str "")),
    ("provider", jsOrV (jget p "provider_name") (.str "")),
    ("altPhones", .arr []),
    ("meta", .obj [])
  ]

/-- Environment bindings read by the _worker.js lookup. -/
structure Env where
  API_URL : String
  VERIFY_TOKEN : String

/-- `lookupByPhoneAndName` of src/_worker.js, as a function of the
upstream response.  The second component counts fetch calls.  All four
precondition checks run before the fetch; a 404 yields the empty record
list; any other non-2xx status throws; a single-object 2xx body is
normalized to a one-element list before coercion. -/
def lookupByPhoneAndName (e164 firstName lastName : String) (env : Env)
    (resp : HttpResponse) : Except JsError (List JVal) × Nat :=
  if env.API_URL = "" then (.error (.thrown "Missing API_URL"), 0)
  else if env.VERIFY_TOKEN = "" then (.error (.thrown "Missing VERIFY_TOKEN"), 0)
  else if e164 = "" then (.error (.thrown "No valid phone provided"), 0)
  else if firstName = "" ∨ lastName = "" then
    (.error (.thrown "First and last name required"), 0)
  else if resp.status = 404 then (.ok [], 1)
  else if ¬ respOk resp then
    (.error (.thrown ("Upstream " ++ toString resp.status ++ " " ++
       resp.statusText ++ ": " ++ slice300 (safeText resp))), 1)
  else
    match resp.bodyJson with
    | none => (.error .malformedJson, 1)
    | some json =>
      (.ok ((match json with
             | .arr xs => xs
             | j => if j.truthy then [j] else []).map
               (fun item => coerceToCallerSchema item e164)), 1)

end W

/-! Claim theorems.  Each claim of the specification audit gets exactly
one theorem below, with counterexamples and witnesses as separate closed
theorems. -/

/-- Claim C1, corrected.  The query-style coercer (part_000) and the
verification-token coercer (part_001) return, for every payload, an
object carrying all thirteen documented CallerRecord fields, and on the
empty object every field is its documented total default (name Unknown,
emails empty, risk null, and so on).  The coercer of the name-qualified
variant (src/_worker.js) instead returns its own fourteen-field shape —
phone, name, papId, emails, address, dob, copay, insurancePrimary,
insuranceSecondary, eligibility, clinic, provider, altPhones, meta — each
with a total default, and carries no risk, company, title, tags, status,
customerSince or notes field. -/
theorem coerce_total_defaults_amended (api : JVal) (ph : String) :
    (P0.coerceToCallerSchema api ph).keys
        = ["phone", "name", "company", "title", "emails", "altPhones",
           "address", "tags", "risk", "status", "customerSince", "notes", "meta"]
  ∧ (P1.coerceToCallerSchema api ph).keys
        = ["phone", "name", "title", "company", "emails", "altPhones",
           "address", "tags", "risk", "status", "customerSince", "notes", "meta"]
  ∧ (W.coerceToCallerSchema api ph).keys
        = ["phone", "name", "papId", "emails", "address", "dob", "copay",
           "insurancePrimary", "insuranceSecondary", "eligibility", "clinic",
           "provider", "altPhones", "meta"]
  ∧ P0.coerceToCallerSchema (.obj []) ph
        = .obj [("phone", .str ph), ("name", .str "Unknown"),
                ("company", .str ""), ("title", .str ""), ("emails", .arr []),
                ("altPhones", .arr []), ("address", .str ""), ("tags", .arr []),
                ("risk", .null), ("status", .str ""), ("customerSince", .str ""),
                ("notes", .arr []), ("meta", .obj [])]
  ∧ P1.coerceToCallerSchema (.obj []) ph
        = .obj [("phone", .str ph), ("name", .str "Unknown"),
                ("title", .str ""), ("company", .str ""), ("emails", .arr []),
                ("altPhones", .arr []), ("address", .str ""), ("tags", .arr []),
                ("risk", .null), ("status", .str ""), ("customerSince", .str ""),
                ("notes", .arr []), ("meta", .obj [])]
  ∧ W.coerceToCallerSchema (.obj []) ph
        = .obj [("phone", .str ph), ("name", .str "Unknown"), ("papId", .null),
                ("emails", .arr []), ("address", .str ""), ("dob", .str ""),
                ("copay", .null), ("insurancePrimary", .str ""),
                ("insuranceSecondary", .str ""), ("eligibility", .arr []),
                ("clinic", .str ""), ("provider", .str ""),
                ("altPhones", .arr []), ("meta", .obj [])] :=
  ⟨rfl, rfl, rfl, rfl, rfl, rfl⟩

/-- Claim C1 is false as stated: the coercer of the name-qualified
variant (src/_worker.js) does not produce the documented CallerRecord
shape.  On the empty object its result has no risk, tags or status field
at all, where the claim demands risk null and every documented field
present in every deployment variant. -/
theorem coerce_shape_counterexample :
    jget (W.coerceToCallerSchema (.obj []) "+17145551212") "risk" = none
  ∧ jget (W.coerceToCallerSchema (.obj []) "+17145551212") "tags" = none
  ∧ jget (W.coerceToCallerSchema (.obj []) "+17145551212") "status" = none :=
  ⟨rfl, rfl, rfl⟩

/-- Claim C6, corrected.  In the query-style coercer the risk field is
null exactly when the risk of the selected payload object is absent or
falsy — which includes a provided score of 0 — and is otherwise the
provided value unchanged, with no numeric coercion applied. -/
theorem risk_field_amended (ph : String) (v : JVal) :
    jget (P0.coerceToCallerSchema (.obj [("risk", v)]) ph) "risk"
        = some (if v.truthy then v else .null)
  ∧ jget (P0.coerceToCallerSchema (.obj []) ph) "risk" = some .null :=
  ⟨rfl, rfl⟩

/-- Claim C6 is false as stated: a provided risk score of 0 comes back
as null, not as the number 0, and a truthy risk is not numerically
coerced (a string risk stays a string). -/
theorem risk_zero_counterexample :
    jget (P0.coerceToCallerSchema (.obj [("risk", .num 0)]) "+17145551212") "risk"
        = some .null
  ∧ jget (P0.coerceToCallerSchema (.obj [("risk", .str "3")]) "+17145551212") "risk"
        = some (.str "3")
  ∧ JVal.str "3" ≠ JVal.num 3 :=
  ⟨rfl, rfl, fun h => JVal.noConfusion h⟩

/-- Claim C8, confirmed.  For every payload and searched phone, the
altPhones list of the query-style coercion is exactly the truthy
upstream phone entries with the searched phone removed by strict
equality: the searched phone never occurs in it, and it is a sublist of
the upstream entries, so their left-to-right order is preserved.  On the
payload of the specification example only the other phone remains. -/
theorem altPhones_excludes_searched :
    (∀ (api : JVal) (ph : String), ∃ ys : List JVal,
        jget (P0.coerceToCallerSchema api ph) "altPhones" = some (.arr ys)
      ∧ ys = (arrayish (jsOr (jget (P0.pickPrimary api) "altPhones")
                (jget (P0.pickPrimary api) "phones"))).filter
                (fun p => p.truthy && !(jStrEq p ph))
      ∧ JVal.str ph ∉ ys
      ∧ List.Sublist ys (arrayish (jsOr (jget (P0.pickPrimary api) "altPhones")
                (jget (P0.pickPrimary api) "phones"))))
  ∧ jget (P0.coerceToCallerSchema
        (.obj [("phones", .arr [.str "+17145551212", .str "+17145550000"])])
        "+17145551212") "altPhones"
      = some (.arr [.str "+17145550000"]) := by
  constructor
  · intro api ph
    refine ⟨_, rfl, rfl, ?_, List.filter_sublist _⟩
    intro hmem
    have h := (List.mem_filter.mp hmem).2
    simp [jStrEq, JVal.truthy] at h
  · rfl

/-- Claim C9, confirmed.  In the query-style coercer the phone of the
record is the payload phone whenever that value is truthy, and the
searched canonical phone only when the payload phone is absent or falsy;
in particular the record phone can differ from the searched phone. -/
theorem phone_prefers_payload_value (ph : String) (v : JVal) :
    jget (P0.coerceToCallerSchema (.obj [("phone", v)]) ph) "phone"
        = some (if v.truthy then v else .str ph)
  ∧ jget (P0.coerceToCallerSchema (.obj []) ph) "phone" = some (.str ph)
  ∧ jget (P0.coerceToCallerSchema (.obj [("phone", .str "+15550001111")])
        "+17145551212") "phone" = some (.str "+15550001111")
  ∧ JVal.str "+15550001111" ≠ JVal.str "+17145551212" := by
  refine ⟨rfl, rfl, rfl, ?_⟩
  intro h
  injection h with h2
  exact absurd h2 (by decide)

/-- Every character the digit filter keeps is a digit. -/
theorem mem_digitsOf_isDigit {s : String} : ∀ c ∈ digitsOf s, Char.isDigit c = true :=
  fun _ hc => (List.mem_filter.mp hc).2

/-- The digit filter is the identity on all-digit character lists. -/
theorem filter_isDigit_eq_self {l : List Char}
    (h : ∀ c ∈ l, Char.isDigit c = true) : l.filter Char.isDigit = l :=
  List.filter_eq_self.mpr h

/-- Unfolding of the digit extraction on an explicit character list. -/
theorem digitsOf_mk (l : List Char) : digitsOf (String.mk l) = l.filter Char.isDigit :=
  rfl

/-- Digit extraction drops a leading plus and fixes an all-digit tail. -/
theorem digitsOf_mk_plus (l : List Char) (h : ∀ c ∈ l, Char.isDigit c = true) :
    digitsOf (String.mk ('+' :: l)) = l := by
  have hp : Char.isDigit '+' = false := by decide
  rw [digitsOf_mk, List.filter_cons]
  simp [hp, filter_isDigit_eq_self h]

/-- A plus followed by a non-empty all-digit list whose length is not 10
is a fixed point of the normalizer with default country "+1". -/
theorem normalizePhone_fixed (l : List Char) (hne : l ≠ [])
    (hall : ∀ c ∈ l, Char.isDigit c = true) (hlen : l.length ≠ 10) :
    normalizePhone (String.mk ('+' :: l)) "+1" = String.mk ('+' :: l) := by
  have hd : digitsOf (String.mk ('+' :: l)) = l := digitsOf_mk_plus l hall
  unfold normalizePhone
  rw [hd]
  rw [if_neg (show ¬((String.mk ('+' :: l)).data = []) from by simp)]
  rw [if_neg hne]
  by_cases h2 : l.length = 11 ∧ List.take 1 l = ['1']
  · rw [if_pos h2]
  · rw [if_neg h2, if_neg hlen, ite_self]

/-- Claim C10, confirmed.  With the default country prefix "+1" the
normalizer is idempotent: normalizing an already-normalized value
changes nothing, for every input string. -/
theorem normalizePhone_idempotent (s : String) :
    normalizePhone (normalizePhone s "+1") "+1" = normalizePhone s "+1" := by
  by_cases h0 : s.data = []
  · have he : normalizePhone s "+1" = "" := by
      unfold normalizePhone; rw [if_pos h0]
    rw [he]
    decide
  · by_cases h1 : digitsOf s = []
    · have he : normalizePhone s "+1" = "" := by
        unfold normalizePhone; rw [if_neg h0, if_pos h1]
      rw [he]
      decide
    · have hall := mem_digitsOf_isDigit (s := s)
      by_cases h2 : (digitsOf s).length = 11 ∧ List.take 1 (digitsOf s) = ['1']
      · have he : normalizePhone s "+1" = String.mk ('+' :: digitsOf s) := by
          unfold normalizePhone; rw [if_neg h0, if_neg h1, if_pos h2]
        have hne11 : (digitsOf s).length ≠ 10 := by
          have h11 := h2.1; omega
        rw [he]
        exact normalizePhone_fixed _ h1 hall hne11
      · by_cases h3 : (digitsOf s).length = 10
        · have he : normalizePhone s "+1" = String.mk ('+' :: '1' :: digitsOf s) := by
            unfold normalizePhone; rw [if_neg h0, if_neg h1, if_neg h2, if_pos h3]
            rfl
          rw [he]
          refine normalizePhone_fixed ('1' :: digitsOf s) (List.cons_ne_nil _ _) ?_ ?_
          · intro c hc
            rcases List.mem_cons.mp hc with h | h
            · subst h; decide
            · exact hall c h
          · rw [List.length_cons, h3]
            omega
        · have he : normalizePhone s "+1" = String.mk ('+' :: digitsOf s) := by
            unfold normalizePhone
            rw [if_neg h0, if_neg h1, if_neg h2, if_neg h3, ite_self]
          rw [he]
          exact normalizePhone_fixed _ h1 hall h3

/-- The digit extraction of a string is an all-digit list. -/
theorem digitsOf_all_isDigit (s : String) : (digitsOf s).all Char.isDigit = true :=
  List.all_eq_true.mpr (mem_digitsOf_isDigit (s := s))

/-- Claim C2, corrected.  When the configured default country prefix is
a plus followed only by digits (as the default "+1" is), every non-empty
result of the normalizer is a plus followed only by digit characters;
and with prefix "+1" the 11-to-16-character length bound holds whenever
the input strips to between 10 and 15 digits.  For other digit counts
the permissive fallback returns a plus followed by all remaining digits,
whose length the claim does not bound. -/
theorem canonicalPhone_shape_amended (input cc : String) (ds : List Char)
    (hcc : cc.data = '+' :: ds) (hds : ds.all Char.isDigit = true) :
    (normalizePhone input cc = ""
      ∨ ∃ t : List Char, (normalizePhone input cc).data = '+' :: t
          ∧ t.all Char.isDigit = true)
  ∧ (cc = "+1" → 10 ≤ (digitsOf input).length → (digitsOf input).length ≤ 15 →
      11 ≤ (normalizePhone input cc).length ∧ (normalizePhone input cc).length ≤ 16) := by
  constructor
  · unfold normalizePhone
    by_cases h0 : input.data = []
    · rw [if_pos h0]; exact Or.inl rfl
    · rw [if_neg h0]
      by_cases h1 : digitsOf input = []
      · rw [if_pos h1]; exact Or.inl rfl
      · rw [if_neg h1]
        by_cases h2 : (digitsOf input).length = 11 ∧ List.take 1 (digitsOf input) = ['1']
        · rw [if_pos h2]
          exact Or.inr ⟨digitsOf input, rfl, digitsOf_all_isDigit input⟩
        · rw [if_neg h2]
          by_cases h3 : (digitsOf input).length = 10
          · rw [if_pos h3]
            refine Or.inr ⟨ds ++ digitsOf input, ?_, ?_⟩
            · show ccOf cc ++ digitsOf input = '+' :: (ds ++ digitsOf input)
              unfold ccOf
              rw [if_pos (by rw [hcc]; rfl), hcc]
              rfl
            · rw [List.all_append, hds, digitsOf_all_isDigit input]
              rfl
          · rw [if_neg h3, ite_self]
            exact Or.inr ⟨digitsOf input, rfl, digitsOf_all_isDigit input⟩
  · intro hcc1 hlo hhi
    subst hcc1
    unfold normalizePhone
    by_cases h0 : input.data = []
    · have hnil : digitsOf input = [] := by unfold digitsOf; rw [h0]; rfl
      rw [hnil] at hlo
      simp at hlo
    · rw [if_neg h0]
      have h1 : digitsOf input ≠ [] := by
        intro h; rw [h] at hlo; simp at hlo
      rw [if_neg h1]
      by_cases h2 : (digitsOf input).length = 11 ∧ List.take 1 (digitsOf input) = ['1']
      · rw [if_pos h2]
        show 11 ≤ ('+' :: digitsOf input).length ∧ ('+' :: digitsOf input).length ≤ 16
        rw [List.length_cons]
        omega
      · by_cases h3 : (digitsOf input).length = 10
        · rw [if_neg h2, if_pos h3]
          show 11 ≤ (ccOf "+1" ++ digitsOf input).length ∧
               (ccOf "+1" ++ digitsOf input).length ≤ 16
          have hc : ccOf "+1" = ['+', '1'] := rfl
          have hc2 : (['+', '1'] : List Char).length = 2 := rfl
          rw [hc, List.length_append, hc2, h3]
          omega
        · rw [if_neg h2, if_neg h3, ite_self]
          show 11 ≤ ('+' :: digitsOf input).length ∧ ('+' :: digitsOf input).length ≤ 16
          rw [List.length_cons]
          omega

/-- Witness for Claim C2 at a concrete input: a 10-digit input with the
default prefix lands inside the 11-to-16 length bound. -/
theorem canonicalPhone_shape_amended_witness :
    (normalizePhone "7145551212" "+1" = ""
      ∨ ∃ t : List Char, (normalizePhone "7145551212" "+1").data = '+' :: t
          ∧ t.all Char.isDigit = true)
  ∧ 11 ≤ (normalizePhone "7145551212" "+1").length
  ∧ (normalizePhone "7145551212" "+1").length ≤ 16 := by
  have h := canonicalPhone_shape_amended "7145551212" "+1" ['1'] rfl (by decide)
  have h2 := h.2 rfl (by decide) (by decide)
  exact ⟨h.1, h2.1, h2.2⟩

/-- Claim C2 is false as stated: a 5-digit input yields the non-empty
result "+12345" of length 6, violating the claimed 11-to-16 length
bound, and a default prefix carrying a non-digit is passed through, so
the result is not a plus followed only by digits. -/
theorem canonicalPhone_shape_counterexample :
    normalizePhone "12345" "+1" = "+12345"
  ∧ ("+12345" : String).length = 6
  ∧ ¬ 11 ≤ ("+12345" : String).length
  ∧ normalizePhone "7145551212" "+x" = "+x7145551212"
  ∧ ("x7145551212" : String).data.all Char.isDigit = false := by
  exact ⟨by decide, by decide, by decide, by decide, by decide⟩

/-- Claim C7, corrected.  For a 10-digit input the normalizer returns
the code-side prefix normalization `ccOf` immediately followed by the
ten digits unchanged.  `ccOf` uses a prefix that already starts with a
plus verbatim — without stripping non-digits after the plus — and agrees
with the stripping rule `specCountryCode` worded by the specification
exactly when the prefix does not start with a plus or is a plus followed
only by digits. -/
theorem ten_digit_case_amended (input cc : String)
    (hlen : (digitsOf input).length = 10) :
    (normalizePhone input cc).data = ccOf cc ++ digitsOf input
  ∧ (cc.data.take 1 ≠ ['+'] → ccOf cc = specCountryCode cc)
  ∧ (∀ ds : List Char, cc.data = '+' :: ds → ds.all Char.isDigit = true →
      ccOf cc = specCountryCode cc) := by
  refine ⟨?_, ?_, ?_⟩
  · unfold normalizePhone
    have h0 : input.data ≠ [] := by
      intro h
      have : digitsOf input = [] := by unfold digitsOf; rw [h]; rfl
      rw [this] at hlen
      simp at hlen
    have h1 : digitsOf input ≠ [] := by
      intro h; rw [h] at hlen; simp at hlen
    rw [if_neg h0, if_neg h1,
        if_neg (by intro h; have := h.1; omega), if_pos hlen]
  · intro h
    unfold ccOf specCountryCode
    rw [if_neg h, if_neg h]
  · intro ds h hall
    have hp : cc.data.take 1 = ['+'] := by rw [h]; rfl
    unfold ccOf specCountryCode
    rw [if_pos hp, if_pos hp, h]
    show ('+' :: ds) = '+' :: (('+' :: ds).drop 1).filter Char.isDigit
    rw [List.drop_one, List.tail_cons,
        List.filter_eq_self.mpr (List.all_eq_true.mp hall)]

/-- Witness for Claim C7 at concrete inputs: a 10-digit input with a
digits-only prefix without a plus, and with the well-formed default
prefix "+1", where code and specification agree. -/
theorem ten_digit_case_amended_witness :
    (normalizePhone "7145551212" "27").data = ccOf "27" ++ digitsOf "7145551212"
  ∧ ccOf "27" = specCountryCode "27"
  ∧ ccOf "+1" = specCountryCode "+1" := by
  have h := ten_digit_case_amended "7145551212" "27" (by decide)
  have h2 := ten_digit_case_amended "7145551212" "+1" (by decide)
  exact ⟨h.1, h.2.1 (by decide), h2.2.2 ['1'] rfl (by decide)⟩

/-- Claim C7 is false as stated: a configured prefix that starts with a
plus is not stripped of later non-digit characters.  With prefix "+1!"
the 10-digit input keeps the exclamation mark, while the stripping rule
worded by the specification would produce "+17145551212". -/
theorem ten_digit_case_counterexample :
    normalizePhone "7145551212" "+1!" = "+1!7145551212"
  ∧ specCountryCode "+1!" = ['+', '1']
  ∧ String.mk (specCountryCode "+1!" ++ digitsOf "7145551212") = "+17145551212"
  ∧ normalizePhone "7145551212" "+1!" ≠ "+17145551212" := by
  exact ⟨by decide, by decide, by decide, by decide⟩

/-- Evaluation of the verification-token lookup at an empty phone: only
the configuration checks remain, and the response is never consulted. -/
theorem P1_lookup_empty_phone (env1 : P1.Env) (resp : HttpResponse) :
    P1.lookupByPhone "" env1 resp =
      (if env1.API_URL = "" then (Except.error (JsError.thrown "Missing API_URL"), 0)
       else if env1.VERIFY_TOKEN = "" then
         (Except.error (JsError.thrown "Missing VERIFY_TOKEN"), 0)
       else (Except.error (JsError.thrown "No valid phone provided"), 0)) := by
  unfold P1.lookupByPhone
  rw [if_pos (show ("" : String) = "" from rfl)]

/-- Evaluation of the name-qualified lookup at an empty phone: only the
configuration checks remain, and the response is never consulted. -/
theorem W_lookup_empty_phone (envW : W.Env) (fn ln : String) (resp : HttpResponse) :
    W.lookupByPhoneAndName "" fn ln envW resp =
      (if envW.API_URL = "" then (Except.error (JsError.thrown "Missing API_URL"), 0)
       else if envW.VERIFY_TOKEN = "" then
         (Except.error (JsError.thrown "Missing VERIFY_TOKEN"), 0)
       else (Except.error (JsError.thrown "No valid phone provided"), 0)) := by
  unfold W.lookupByPhoneAndName
  rw [if_pos (show ("" : String) = "" from rfl)]

/-- Claim C4, confirmed.  In both lookup variants that check them, every
precondition error — missing endpoint URL, missing credential, empty
canonical phone and, in the name-qualified variant, a missing first or
last name — is raised with zero fetch calls, and a call with an empty
canonical phone is independent of whatever the network would have
answered, so it fails with zero network round trips.  The query-style
variant, which checks only the phone, likewise short-circuits on an
empty phone. -/
theorem preconditions_before_network
    (env1 : P1.Env) (envW : W.Env) (env0 : P0.Env)
    (ph fn ln : String) (resp resp2 : HttpResponse) :
    (P0.lookupByPhone "" env0 resp).2 = 0
  ∧ (P1.lookupByPhone "" env1 resp).2 = 0
  ∧ (W.lookupByPhoneAndName "" fn ln envW resp).2 = 0
  ∧ P0.lookupByPhone "" env0 resp = P0.lookupByPhone "" env0 resp2
  ∧ P1.lookupByPhone "" env1 resp = P1.lookupByPhone "" env1 resp2
  ∧ W.lookupByPhoneAndName "" fn ln envW resp
      = W.lookupByPhoneAndName "" fn ln envW resp2
  ∧ (∃ msg, (P1.lookupByPhone "" env1 resp).1 = .error (.thrown msg))
  ∧ (∃ msg, (W.lookupByPhoneAndName "" fn ln envW resp).1 = .error (.thrown msg))
  ∧ (P0.lookupByPhone "" env0 resp).1 = .error (.thrown "No valid phone provided.")
  ∧ (env1.API_URL = "" →
      P1.lookupByPhone ph env1 resp = (.error (.thrown "Missing API_URL"), 0))
  ∧ (env1.API_URL ≠ "" → env1.VERIFY_TOKEN = "" →
      P1.lookupByPhone ph env1 resp = (.error (.thrown "Missing VERIFY_TOKEN"), 0))
  ∧ (env1.API_URL ≠ "" → env1.VERIFY_TOKEN ≠ "" →
      P1.lookupByPhone "" env1 resp = (.error (.thrown "No valid phone provided"), 0))
  ∧ (envW.API_URL = "" →
      W.lookupByPhoneAndName ph fn ln envW resp = (.error (.thrown "Missing API_URL"), 0))
  ∧ (envW.API_URL ≠ "" → envW.VERIFY_TOKEN = "" →
      W.lookupByPhoneAndName ph fn ln envW resp
        = (.error (.thrown "Missing VERIFY_TOKEN"), 0))
  ∧ (envW.API_URL ≠ "" → envW.VERIFY_TOKEN ≠ "" →
      W.lookupByPhoneAndName "" fn ln envW resp
        = (.error (.thrown "No valid phone provided"), 0))
  ∧ (envW.API_URL ≠ "" → envW.VERIFY_TOKEN ≠ "" → ph ≠ "" → (fn = "" ∨ ln = "") →
      W.lookupByPhoneAndName ph fn ln envW resp
        = (.error (.thrown "First and last name required"), 0)) := by
  refine ⟨?_, ?_, ?_, ?_, ?_, ?_, ?_, ?_, ?_, ?_, ?_, ?_, ?_, ?_, ?_, ?_⟩
  · unfold P0.lookupByPhone; rw [if_pos rfl]
  · rw [P1_lookup_empty_phone]; split_ifs <;> rfl
  · rw [W_lookup_empty_phone]; split_ifs <;> rfl
  · unfold P0.lookupByPhone; rw [if_pos rfl, if_pos rfl]
  · rw [P1_lookup_empty_phone env1 resp, P1_lookup_empty_phone env1 resp2]
  · rw [W_lookup_empty_phone envW fn ln resp, W_lookup_empty_phone envW fn ln resp2]
  · rw [P1_lookup_empty_phone]
    by_cases hu : env1.API_URL = ""
    · exact ⟨"Missing API_URL", by rw [if_pos hu]⟩
    · by_cases ht : env1.VERIFY_TOKEN = ""
      · exact ⟨"Missing VERIFY_TOKEN", by rw [if_neg hu, if_pos ht]⟩
      · exact ⟨"No valid phone provided", by rw [if_neg hu, if_neg ht]⟩
  · rw [W_lookup_empty_phone]
    by_cases hu : envW.API_URL = ""
    · exact ⟨"Missing API_URL", by rw [if_pos hu]⟩
    · by_cases ht : envW.VERIFY_TOKEN = ""
      · exact ⟨"Missing VERIFY_TOKEN", by rw [if_neg hu, if_pos ht]⟩
      · exact ⟨"No valid phone provided", by rw [if_neg hu, if_neg ht]⟩
  · unfold P0.lookupByPhone; rw [if_pos rfl]
  · intro hu
    unfold P1.lookupByPhone; rw [if_pos hu]
  · intro hu ht
    unfold P1.lookupByPhone; rw [if_neg hu, if_pos ht]
  · intro hu ht
    unfold P1.lookupByPhone; rw [if_neg hu, if_neg ht, if_pos rfl]
  · intro hu
    unfold W.lookupByPhoneAndName; rw [if_pos hu]
  · intro hu ht
    unfold W.lookupByPhoneAndName; rw [if_neg hu, if_pos ht]
  · intro hu ht
    unfold W.lookupByPhoneAndName; rw [if_neg hu, if_neg ht, if_pos rfl]
  · intro hu ht hph hfl
    unfold W.lookupByPhoneAndName; rw [if_neg hu, if_neg ht, if_neg hph, if_pos hfl]

/-- Witness for Claim C4 at concrete inputs: each precondition error of
both checking variants fires with zero fetch calls. -/
theorem preconditions_before_network_witness :
    P1.lookupByPhone "+17145551212" ⟨"", ""⟩ ⟨500, "Server Error", some "boom", none⟩
      = (.error (.thrown "Missing API_URL"), 0)
  ∧ P1.lookupByPhone "+17145551212" ⟨"https://u", ""⟩ ⟨500, "Server Error", some "boom", none⟩
      = (.error (.thrown "Missing VERIFY_TOKEN"), 0)
  ∧ P1.lookupByPhone "" ⟨"https://u", "t"⟩ ⟨500, "Server Error", some "boom", none⟩
      = (.error (.thrown "No valid phone provided"), 0)
  ∧ W.lookupByPhoneAndName "+17145551212" "Jordan" "" ⟨"https://u", "t"⟩
      ⟨500, "Server Error", some "boom", none⟩
      = (.error (.thrown "First and last name required"), 0)
  ∧ (P0.lookupByPhone "" ⟨"https://u", "t"⟩ ⟨500, "Server Error", some "boom", none⟩).2 = 0 := by
  obtain ⟨-, -, -, -, -, -, -, -, -, hA, -, -, -, -, -, -⟩ :=
    preconditions_before_network ⟨"", ""⟩ ⟨"https://u", "t"⟩ ⟨"https://u", "t"⟩
      "+17145551212" "Jordan" "Park" ⟨500, "Server Error", some "boom", none⟩
      ⟨500, "Server Error", some "boom", none⟩
  obtain ⟨-, -, -, -, -, -, -, -, -, -, hB, -, -, -, -, -⟩ :=
    preconditions_before_network ⟨"https://u", ""⟩ ⟨"https://u", "t"⟩ ⟨"https://u", "t"⟩
      "+17145551212" "Jordan" "Park" ⟨500, "Server Error", some "boom", none⟩
      ⟨500, "Server Error", some "boom", none⟩
  obtain ⟨-, -, -, -, -, -, -, -, -, -, -, hC, -, -, -, -⟩ :=
    preconditions_before_network ⟨"https://u", "t"⟩ ⟨"https://u", "t"⟩ ⟨"https://u", "t"⟩
      "+17145551212" "Jordan" "Park" ⟨500, "Server Error", some "boom", none⟩
      ⟨500, "Server Error", some "boom", none⟩
  obtain ⟨hE, -, -, -, -, -, -, -, -, -, -, -, -, -, -, hD⟩ :=
    preconditions_before_network ⟨"https://u", "t"⟩ ⟨"https://u", "t"⟩ ⟨"https://u", "t"⟩
      "+17145551212" "Jordan" "" ⟨500, "Server Error", some "boom", none⟩
      ⟨500, "Server Error", some "boom", none⟩
  exact ⟨hA rfl, hB (by decide) rfl, hC (by decide) (by decide),
         hD (by decide) (by decide) (by decide) (Or.inr rfl), hE⟩

/-- Claim C5, confirmed.  With all preconditions satisfied, the
name-qualified lookup of src/_worker.js turns an upstream 404 into the
empty record list with no error, while every other non-2xx status
raises a thrown upstream error whose message carries the status code:
the two outcomes of the same function are distinguishable. -/
theorem notFound_distinct_from_upstream
    (envW : W.Env) (ph fn ln : String) (resp : HttpResponse)
    (hurl : envW.API_URL ≠ "") (htok : envW.VERIFY_TOKEN ≠ "")
    (hph : ph ≠ "") (hfn : fn ≠ "") (hln : ln ≠ "") :
    (resp.status = 404 → W.lookupByPhoneAndName ph fn ln envW resp = (.ok [], 1))
  ∧ (resp.status ≠ 404 → ¬ respOk resp →
      W.lookupByPhoneAndName ph fn ln envW resp
        = (.error (.thrown ("Upstream " ++ toString resp.status ++ " " ++
            resp.statusText ++ ": " ++ slice300 (safeText resp))), 1)) := by
  constructor
  · intro h404
    unfold W.lookupByPhoneAndName
    rw [if_neg hurl, if_neg htok, if_neg hph, if_neg (by simp [hfn, hln]), if_pos h404]
  · intro hne hnok
    unfold W.lookupByPhoneAndName
    rw [if_neg hurl, if_neg htok, if_neg hph, if_neg (by simp [hfn, hln]),
        if_neg hne, if_pos hnok]

/-- Witness for Claim C5 at concrete inputs: a 404 yields the empty
record list, a 500 yields the thrown upstream error with the status in
its message. -/
theorem notFound_distinct_from_upstream_witness :
    W.lookupByPhoneAndName "+17145551212" "Jordan" "Park" ⟨"https://u", "t"⟩
      ⟨404, "Not Found", some "", some (.obj [])⟩ = (.ok [], 1)
  ∧ W.lookupByPhoneAndName "+17145551212" "Jordan" "Park" ⟨"https://u", "t"⟩
      ⟨500, "Server Error", some "boom", none⟩
      = (.error (.thrown "Upstream 500 Server Error: boom"), 1) := by
  have h404 := notFound_distinct_from_upstream ⟨"https://u", "t"⟩ "+17145551212"
    "Jordan" "Park" ⟨404, "Not Found", some "", some (.obj [])⟩
    (by decide) (by decide) (by decide) (by decide) (by decide)
  have h500 := notFound_distinct_from_upstream ⟨"https://u", "t"⟩ "+17145551212"
    "Jordan" "Park" ⟨500, "Server Error", some "boom", none⟩
    (by decide) (by decide) (by decide) (by decide) (by decide)
  exact ⟨h404.1 rfl, (h500.2 (by decide) (by decide)).trans rfl⟩

/-- Claim C3, corrected.  A 2xx upstream response whose body fails to
parse as JSON raises an error in the verification-token variant and in
the name-qualified variant, but in the query-style variant (part_000)
the parse failure is caught and replaced by the empty object, which is
coerced into a default CallerRecord and returned as caller data. -/
theorem parse_failure_amended
    (env1 : P1.Env) (envW : W.Env) (env0 : P0.Env)
    (e164 fn ln : String) (resp : HttpResponse)
    (hph : e164 ≠ "") (h2xx : respOk resp) (hbad : resp.bodyJson = none) :
    (env1.API_URL ≠ "" → env1.VERIFY_TOKEN ≠ "" →
      P1.lookupByPhone e164 env1 resp = (.error .malformedJson, 1))
  ∧ (envW.API_URL ≠ "" → envW.VERIFY_TOKEN ≠ "" → fn ≠ "" → ln ≠ "" →
      W.lookupByPhoneAndName e164 fn ln envW resp = (.error .malformedJson, 1))
  ∧ P0.lookupByPhone e164 env0 resp
      = (.ok (P0.coerceToCallerSchema (.obj []) e164), 1) := by
  have hnot404 : resp.status ≠ 404 := by
    obtain ⟨ha, hb⟩ := h2xx; omega
  refine ⟨?_, ?_, ?_⟩
  · intro hu ht
    unfold P1.lookupByPhone
    rw [if_neg hu, if_neg ht, if_neg hph, if_neg (not_not_intro h2xx), hbad]
  · intro hu ht hfn hln
    unfold W.lookupByPhoneAndName
    rw [if_neg hu, if_neg ht, if_neg hph, if_neg (by simp [hfn, hln]),
        if_neg hnot404, if_neg (not_not_intro h2xx), hbad]
  · unfold P0.lookupByPhone
    rw [if_neg hph, if_neg (not_not_intro h2xx), hbad]

/-- Witness for Claim C3 at a concrete unparsable 2xx response. -/
theorem parse_failure_amended_witness :
    P1.lookupByPhone "+17145551212" ⟨"https://u", "t"⟩ ⟨200, "OK", some "x", none⟩
      = (.error .malformedJson, 1)
  ∧ W.lookupByPhoneAndName "+17145551212" "Jordan" "Park" ⟨"https://u", "t"⟩
      ⟨200, "OK", some "x", none⟩ = (.error .malformedJson, 1)
  ∧ P0.lookupByPhone "+17145551212" ⟨"https://u", "t"⟩ ⟨200, "OK", some "x", none⟩
      = (.ok (P0.coerceToCallerSchema (.obj []) "+17145551212"), 1) := by
  have h := parse_failure_amended ⟨"https://u", "t"⟩ ⟨"https://u", "t"⟩ ⟨"https://u", "t"⟩
    "+17145551212" "Jordan" "Park" ⟨200, "OK", some "x", none⟩
    (by decide) (by decide) rfl
  exact ⟨h.1 (by decide) (by decide),
         h.2.1 (by decide) (by decide) (by decide) (by decide), h.2.2⟩

/-- Claim C3 is false as stated: in the query-style variant (part_000) a
2xx response with an unparsable body is not an error; the caught parse
failure becomes the empty object and the request succeeds with the
default CallerRecord — silently treated as caller data. -/
theorem parse_failure_counterexample :
    (P0.lookupByPhone "+17145551212" ⟨"https://u", "t"⟩
        ⟨200, "OK", some "not json", none⟩).1
      = .ok (P0.coerceToCallerSchema (.obj []) "+17145551212")
  ∧ jget (P0.coerceToCallerSchema (.obj []) "+17145551212") "name"
      = some (.str "Unknown") :=
  ⟨rfl, rfl⟩
